import Mathlib

/-!
Verification development for the HeatMap repository.

The definitions below are a shallow embedding of the repository's code:

* `AddressValidationService` (Google/Lob address validation and the
  fallback/merge orchestration in `exec`) from the geocoding service file;
* the Solid store (`mapStore.ts`): `startProcessing`, `setGeocoded`,
  `updateProgress`/`updateETA`, `setFailed`, `finishProcessing`,
  `addressToKey`, `formatETA`;
* `MapService.addMarkers` (the canonical, most complete snapshot) and
  `MapService.saveHeatMap`.

JavaScript values that may be `null`/`undefined` are modelled as `Option`;
JS numbers as `Rat`; JS truthiness tests (`!x`, `x && y`, `a ?? b`,
`a || b`) are translated explicitly at each use site.  External
collaborators (the two provider HTTP endpoints, the ZipMonster dataset,
the remote persistence API, the state-name converter) are parameters of
the embedded functions.
-/

namespace HeatMap

/-- A geocode location; the latitude/longitude may be absent (`null` in the
Lob response) and may be zero. -/
structure GeoLocation where
  latitude : Option Rat
  longitude : Option Rat
deriving DecidableEq, Repr

/-- The `geocode` object of a provider result.  `location` is `none` when the
key is absent; `meta` abstracts the additional Google-only fields
(`plusCode`, bounds, ...) that take part in the spread-merge. -/
structure Geocode where
  location : Option GeoLocation
  meta : Option String
deriving DecidableEq, Repr

/-- One Google `addressComponents[]` entry (also used for the issue entries
Lob results are normalised into). -/
structure AddressComponent where
  componentType : String
  text : String
  confirmationLevel : String
deriving DecidableEq, Repr

/-- The input address (`BasicAddress` in the source). -/
structure BasicAddress where
  street : String
  unitNumber : Option String
  city : String
  state : String
  zip : String
deriving DecidableEq, Repr

/-- The normalised `validatedAddress` record.  Every field can be absent
(`undefined`) in the merge paths, hence `Option`. -/
structure ValidatedAddress where
  street : Option String
  unitNumber : Option String
  city : Option String
  state : Option String
  zip : Option String
  county : Option String
deriving DecidableEq, Repr

/-- The `suggestions` record. -/
structure Suggestions where
  street : Option String
  zip : Option String
  state : Option String
deriving DecidableEq, Repr

/-- The canonical result record produced by both adapters and by `exec`. -/
structure ResolvedAddress where
  allValid : Bool
  validatedAddress : ValidatedAddress
  originalAddress : BasicAddress
  issues : List AddressComponent
  suggestions : Suggestions
  geocode : Geocode
  verifiedWith : String
deriving DecidableEq, Repr

/-- One ZipMonster `ZipInformation` entry (only the `location` field is
consulted by the code). -/
structure ZipInfo where
  location : Option GeoLocation
deriving DecidableEq, Repr

/-- The `postalAddress` part of a Google result. -/
structure PostalAddress where
  addressLines : List String
  locality : String
  administrativeArea : String
  postalCode : String
deriving DecidableEq, Repr

/-- The `result` object of a Google address-validation response.
`geocode` may be absent; `county` is `uspsData.county`. -/
structure GoogleResult where
  geocode : Option Geocode
  postalAddress : PostalAddress
  addressComponents : List AddressComponent
  county : Option String
deriving DecidableEq, Repr

/-- Outcome of the Google HTTP call: the fetch itself throws, the response
carries an `error`, the response has no `result`, or a result is present. -/
inductive GoogleResponse where
  | fetchError (m : String)
  | apiError (m : String)
  | noResult
  | ok (r : GoogleResult)
deriving DecidableEq, Repr

/-- The `components` part of a Lob verification response. -/
structure LobComponents where
  street_predirection : Option String
  street_postdirection : Option String
  zip_code : String
  state : String
  city : String
  county : Option String
  latitude : Option Rat
  longitude : Option Rat
deriving DecidableEq, Repr

/-- A Lob verification response. -/
structure LobResponse where
  primary_line : String
  secondary_line : Option String
  components : LobComponents
deriving DecidableEq, Repr

/-- Outcome of the Lob API call. -/
inductive LobOutcome where
  | throwErr (m : String)
  | nullResp
  | ok (r : LobResponse)
deriving DecidableEq, Repr

/-- The generic user-facing error message thrown throughout the service. -/
def genericMsg : String :=
  "We encountered an error when trying to run our address validation service, please contact AssetVal I.T."

/-- Message of the rejection raised by `geolocateZipCode` when ZipMonster
finds nothing. -/
def zipNotFoundMsg : String := "Zip code not found"

/-- Stands for the JS `TypeError` raised when the code dereferences or
destructures `undefined`. -/
def typeErrorMsg : String := "TypeError"

/-- JS nullish coalescing `a ?? b` on optional values. -/
def jsNullish {α : Type} (a b : Option α) : Option α :=
  match a with
  | some x => some x
  | none => b

/-- Truthiness of an optional string (`undefined` and `""` are falsy). -/
def truthyStr (o : Option String) : Bool :=
  match o with
  | some s => s != ""
  | none => false

/-- Truthiness of an optional number (`undefined`, `null` and `0` are falsy). -/
def truthyNum (o : Option Rat) : Bool :=
  match o with
  | some x => x != 0
  | none => false

/-- The falsy/zero test applied to a geocode by both rescue sites:
`!geocode?.location?.latitude || !geocode?.location.longitude ||
latitude === 0 || longitude === 0` (for a present geocode object). -/
def locFalsy (g : Geocode) : Bool :=
  match g.location with
  | none => true
  | some l => !truthyNum l.latitude || !truthyNum l.longitude

/-- The ZIP dataset: `ZipMonster.find({zip})` returns a list of entries or
nothing.  `geolocateZipCode` rejects with `zipNotFoundMsg` on nothing. -/
def ZipDB : Type := String → Option (List ZipInfo)

/-- The Google-side suggestions record, built from `addressComponents`. -/
def googleSuggestions (comps : List AddressComponent) : Suggestions :=
  { street := (comps.find? (fun c => c.componentType == "street")).map (fun c => c.text)
    zip := (comps.find? (fun c => c.componentType == "zip")).map (fun c => c.text)
    state := (comps.find? (fun c => c.componentType == "state")).map (fun c => c.text) }

/-- The ZIP string the Google-path rescue looks up:
`postalAddress.postalCode.split('-')[0] ?? zip`. -/
def googleZipToVerify (r : GoogleResult) (addr : BasicAddress) : String :=
  (r.postalAddress.postalCode.splitOn "-").headD addr.zip

/-- The zero/missing-coordinate rescue inside `ValidateAddressViaGoogle`
(lines guarding `geocode?.location?.latitude`).  When `geocode` itself is
undefined the guard fires and, after a successful ZIP lookup, the
assignment `geocode.location = ...` throws a `TypeError`. -/
def googleRescue (zipDB : ZipDB) (addr : BasicAddress) (r : GoogleResult) :
    Except String Geocode :=
  match r.geocode with
  | none =>
    (match zipDB (googleZipToVerify r addr) with
     | none => .error zipNotFoundMsg
     | some lst =>
       match lst.head? with
       | none => .error genericMsg
       | some zi =>
         match zi.location with
         | none => .error genericMsg
         | some _ => .error typeErrorMsg)
  | some g =>
    if locFalsy g then
      (match zipDB (googleZipToVerify r addr) with
       | none => .error zipNotFoundMsg
       | some lst =>
         match lst.head? with
         | none => .error genericMsg
         | some zi =>
           match zi.location with
           | none => .error genericMsg
           | some loc => .ok { g with location := some loc })
    else .ok g

/-- The normalized `validatedAddress` a Google result yields. -/
def googleVA (conv : String → String) (r : GoogleResult) : ValidatedAddress :=
  { street := r.postalAddress.addressLines.head?
    unitNumber := r.postalAddress.addressLines[1]?
    city := some r.postalAddress.locality
    state := some (conv r.postalAddress.administrativeArea)
    zip := some ((r.postalAddress.postalCode.splitOn "-").headD "")
    county := r.county }

/-- The return record of `ValidateAddressViaGoogle` for the (possibly
rescued) geocode, branching on whether every component is `CONFIRMED`. -/
def googleBuild (conv : String → String) (addr : BasicAddress) (r : GoogleResult)
    (geocode : Geocode) : ResolvedAddress :=
  if r.addressComponents.all (fun c => c.confirmationLevel == "CONFIRMED") then
    { allValid := true, validatedAddress := googleVA conv r, originalAddress := addr,
      issues := [], suggestions := ⟨none, none, none⟩,
      geocode := geocode, verifiedWith := "Google" }
  else
    { allValid := false, validatedAddress := googleVA conv r, originalAddress := addr,
      issues := r.addressComponents.filter (fun c => c.confirmationLevel != "CONFIRMED"),
      suggestions := googleSuggestions r.addressComponents,
      geocode := geocode, verifiedWith := "Google" }

/-- `AddressValidationService.ValidateAddressViaGoogle`, with the state-name
converter `conv`, the ZIP dataset and the HTTP outcome as parameters.
Thrown errors are `Except.error`. -/
def ValidateAddressViaGoogle (conv : String → String) (zipDB : ZipDB)
    (addr : BasicAddress) (resp : GoogleResponse) : Except String ResolvedAddress :=
  match resp with
  | .fetchError m => .error m
  | .apiError m => .error m
  | .noResult => .error genericMsg
  | .ok r =>
    match googleRescue zipDB addr r with
    | .error m => .error m
    | .ok geocode => .ok (googleBuild conv addr r geocode)

/-- `Object.entries(suggestions)` mapped to issue entries, in insertion
order (street, zip, state). -/
def lobIssues (s : Suggestions) : List AddressComponent :=
  (match s.street with
   | some v => [⟨"street", v, "CONFIRMATION_LEVEL_UNSPECIFIED"⟩]
   | none => []) ++
  (match s.zip with
   | some v => [⟨"zip", v, "CONFIRMATION_LEVEL_UNSPECIFIED"⟩]
   | none => []) ++
  (match s.state with
   | some v => [⟨"state", v, "CONFIRMATION_LEVEL_UNSPECIFIED"⟩]
   | none => [])

/-- The return record of `validateAddressViaLob` for the computed
suggestion set: valid exactly when no suggestion key was assigned. -/
def lobBuild (conv : String → String) (addr : BasicAddress) (vr : LobResponse)
    (s : Suggestions) : ResolvedAddress :=
  { allValid := s.street.isNone && s.zip.isNone && s.state.isNone,
    validatedAddress :=
      { street := some vr.primary_line
        unitNumber := vr.secondary_line
        city := some vr.components.city
        state := some (conv vr.components.state)
        zip := some vr.components.zip_code
        county := vr.components.county },
    originalAddress := addr,
    issues := lobIssues s,
    suggestions := s,
    geocode := { location := some ⟨vr.components.latitude, vr.components.longitude⟩,
                 meta := none },
    verifiedWith := "Lob" }

/-- `AddressValidationService.validateAddressViaLob`. -/
def validateAddressViaLob (conv : String → String) (addr : BasicAddress)
    (out : LobOutcome) : Except String ResolvedAddress :=
  match out with
  | .throwErr m => .error m
  | .nullResp => .error genericMsg
  | .ok vr =>
    let sStreet : Option String :=
      if vr.primary_line != addr.street.toUpper &&
          (truthyStr vr.components.street_predirection ||
           truthyStr vr.components.street_postdirection) then
        some "cardinal direction"
      else none
    let sZip : Option String :=
      if vr.components.zip_code != addr.zip then some "Zip Code Changed" else none
    let sState : Option String :=
      if vr.components.state != addr.state.toUpper then some "State changed" else none
    .ok (lobBuild conv addr vr ⟨sStreet, sZip, sState⟩)

/-- Field-wise merge of the two `validatedAddress` records via `??`
(nullish coalescing: only `null`/`undefined` fall through, the empty
string does not — the preceding `forEach` loop reassigns its callback
parameter and mutates nothing). -/
def mergeVA (g l : ValidatedAddress) : ValidatedAddress :=
  { street := jsNullish g.street l.street
    unitNumber := jsNullish g.unitNumber l.unitNumber
    city := jsNullish g.city l.city
    state := jsNullish g.state l.state
    zip := jsNullish g.zip l.zip
    county := jsNullish g.county l.county }

/-- `{ ...LobGeocode, ...GoogleGeocode }`: the Google fields overlay the Lob
fields (a key absent on the Google side falls back to Lob's). -/
def spreadGeocode (lob google : Geocode) : Geocode :=
  { location := jsNullish google.location lob.location
    meta := jsNullish google.meta lob.meta }

/-- The ZIP string the merge-path rescue looks up:
`GoogleValidatedAddress.zip ?? LobValidatedAddress.zip ?? this.address.zip`. -/
def mergeZipToVerify (g l : ResolvedAddress) (addr : BasicAddress) : String :=
  (jsNullish g.validatedAddress.zip l.validatedAddress.zip).getD addr.zip

/-- The zero/missing-coordinate rescue on the Google geocode inside the
merge path of `exec`.  An empty ZipMonster answer rejects with
`zipNotFoundMsg`; an empty entry list makes `const { location } = zipInfo`
throw a `TypeError`; an entry without a `location` leaves the geocode
unchanged. -/
def mergeRescue (zipDB : ZipDB) (addr : BasicAddress) (g l : ResolvedAddress) :
    Except String Geocode :=
  if locFalsy g.geocode then
    match zipDB (mergeZipToVerify g l addr) with
    | none => .error zipNotFoundMsg
    | some lst =>
      match lst.head? with
      | none => .error typeErrorMsg
      | some zi =>
        .ok (match zi.location with
             | some loc => { g.geocode with location := some loc }
             | none => g.geocode)
  else .ok g.geocode

/-- The merged record `exec` returns when neither provider is fully
valid, given the (possibly rescued) Google geocode `gg`. -/
def mergeBuild (addr : BasicAddress) (g l : ResolvedAddress) (gg : Geocode) :
    ResolvedAddress :=
  { allValid := false,
    issues := g.issues ++ l.issues,
    suggestions := l.suggestions,
    validatedAddress := mergeVA g.validatedAddress l.validatedAddress,
    originalAddress := addr,
    geocode := spreadGeocode l.geocode gg,
    verifiedWith := "Lob" }

/-- `AddressValidationService.exec`: Google first, returned as-is when fully
valid; otherwise Lob, returned as-is when fully valid; otherwise the
merge, preceded by the zero-coordinate rescue on the Google geocode. -/
def exec (conv : String → String) (zipDB : ZipDB) (addr : BasicAddress)
    (gResp : GoogleResponse) (lResp : LobOutcome) : Except String ResolvedAddress :=
  match ValidateAddressViaGoogle conv zipDB addr gResp with
  | .error m => .error m
  | .ok g =>
    if g.allValid then .ok g
    else
      match validateAddressViaLob conv addr lResp with
      | .error m => .error m
      | .ok l =>
        if l.allValid then .ok l
        else
          match mergeRescue zipDB addr g l with
          | .error m => .error m
          | .ok gg => .ok (mergeBuild addr g l gg)

/-! ## The Solid map store (`src/stores/mapStore.ts`) -/

/-- An input address record (`types.ts`): the raw string, the parsed
fields, and optional pre-existing coordinates. -/
structure AddressFields where
  street : Option String
  city : Option String
  state : Option String
  zip : Option String
deriving DecidableEq, Repr

/-- `Address` from `types.ts`. -/
structure Address where
  address : String
  fields : AddressFields
  lat : Option Rat
  lng : Option Rat
deriving DecidableEq, Repr

/-- The coordinates record handed to `setGeocoded`. -/
structure Coords where
  lat : Rat
  lng : Rat
  countyDensity : Option Rat
deriving DecidableEq, Repr

/-- One `processedAddresses` entry. -/
structure ProcessedEntry where
  street : Option String
  city : Option String
  state : Option String
  zip : Option String
  latitude : Rat
  longitude : Rat
  countyDensity : Option Rat
deriving DecidableEq, Repr

/-- The store state (`MapState`).  `geocodedAddresses` is a JS `Map`,
modelled as an association list with in-place replacement on existing
keys; `startTime` and times are millisecond timestamps. -/
structure MapState where
  useMiles : Bool
  isLoading : Bool
  progress : Nat
  total : Nat
  failed : Nat
  failedAddresses : List Address
  eta : String
  startTime : Rat
  shareId : String
  isSuccess : Bool
  shareError : String
  geocodedAddresses : List (String × Coords)
  processedAddresses : List ProcessedEntry
deriving DecidableEq, Repr

/-- The initial store state. -/
def initialMapState : MapState :=
  { useMiles := true, isLoading := false, progress := 0, total := 0,
    failed := 0, failedAddresses := [], eta := "", startTime := 0,
    shareId := "", isSuccess := false, shareError := "",
    geocodedAddresses := [], processedAddresses := [] }

/-- Template-literal rendering of a possibly-undefined field
(the literal prints `undefined` for a missing value). -/
def tmpl (o : Option String) : String := o.getD "undefined"

/-- `addressToKey`: the backtick template
street `|` city `|` state `|` zip. -/
def addressToKey (a : Address) : String :=
  tmpl a.fields.street ++ "|" ++ tmpl a.fields.city ++ "|" ++
    tmpl a.fields.state ++ "|" ++ tmpl a.fields.zip

/-- JS `Map.set`: replace the value in place when the key exists, append
otherwise. -/
def mapSet : List (String × Coords) → String → Coords → List (String × Coords)
  | [], k, v => [(k, v)]
  | p :: t, k, v => if p.1 == k then (k, v) :: t else p :: mapSet t k v

/-- JS `Map.get`. -/
def mapLookup (m : List (String × Coords)) (k : String) : Option Coords :=
  match m.find? (fun p => p.1 == k) with
  | some p => some p.2
  | none => none

/-- JS `Map.has`. -/
def mapHasKey (m : List (String × Coords)) (k : String) : Bool :=
  m.any (fun p => p.1 == k)

/-- `actions.startProcessing(total)` (reads `Date.now()` as `now`).
It resets `processedAddresses` but not `geocodedAddresses`. -/
def startProcessing (total : Nat) (now : Rat) (s : MapState) : MapState :=
  { s with isLoading := true, progress := 0, total := total, failed := 0,
           failedAddresses := [], startTime := now, shareId := "",
           isSuccess := false, shareError := "", processedAddresses := [] }

/-- `actions.setGeocoded(address, coords)`: overwrite the map entry for the
derived key and append one `processedAddresses` record. -/
def setGeocoded (a : Address) (c : Coords) (s : MapState) : MapState :=
  { s with
    geocodedAddresses := mapSet s.geocodedAddresses (addressToKey a) c,
    processedAddresses := s.processedAddresses ++
      [{ street := a.fields.street, city := a.fields.city,
         state := a.fields.state, zip := a.fields.zip,
         latitude := c.lat, longitude := c.lng,
         countyDensity := c.countyDensity }] }

/-- `Math.ceil` on a rational. -/
def jsCeil (q : Rat) : Int := -((-q).floor)

/-- JS `%` for the non-negative arguments `formatETA` feeds it. -/
def jsMod (a b : Rat) : Rat := a - b * ((a / b).floor : Int)

/-- `formatETA(seconds)`. -/
def formatETA (seconds : Rat) : String :=
  if seconds < 60 then toString (jsCeil seconds) ++ "s"
  else
    toString ((seconds / 60).floor : Int) ++ "m " ++
      toString (jsCeil (jsMod seconds 60)) ++ "s"

/-- The `etaSeconds` computed by `updateETA` when `current > 0`:
`ceil(remaining * (elapsed / current))` with `elapsed` in seconds. -/
def etaSeconds (s : MapState) (current : Nat) (now : Rat) : Int :=
  jsCeil (((s.total : Rat) - (current : Rat)) * (((now - s.startTime) / 1000) / (current : Rat)))

/-- `actions.updateETA(current)`: recompute and format the ETA only when
`current > 0`, otherwise leave `eta` untouched. -/
def updateETA (current : Nat) (now : Rat) (s : MapState) : MapState :=
  if 0 < current then { s with eta := formatETA ((etaSeconds s current now : Int) : Rat) }
  else s

/-- `actions.updateProgress(current)`: record progress, then update ETA. -/
def updateProgress (current : Nat) (now : Rat) (s : MapState) : MapState :=
  updateETA current now { s with progress := current }

/-- `actions.setFailed(addresses)`. -/
def setFailed (addrs : List Address) (s : MapState) : MapState :=
  { s with failedAddresses := addrs, failed := addrs.length }

/-- `actions.finishProcessing(success)`. -/
def finishProcessing (success : Bool) (s : MapState) : MapState :=
  { s with isLoading := false, isSuccess := success }

/-! ## `MapService.addMarkers` and its driver (canonical snapshot) -/

/-- Result of one `booleanPointInPolygon` call on one layer: contained,
not contained, or thrown (caught per-layer and treated as `false`). -/
inductive PipResult where
  | yes
  | no
  | err
deriving DecidableEq, Repr

/-- One entry of `countyLayer.getLayers()`: whether `(layer).feature` is
present, the feature's name and density attribute, and its containment
test as a function of the query point. -/
structure Layer where
  hasFeature : Bool
  name : String
  density : Option Rat
  pip : Rat → Rat → PipResult

/-- The geocode query assembled from an address's fields
(`street/city/zip` defaulted to `''` by `||`, `state` passed through a
bare type cast). -/
structure GeoQuery where
  street : String
  city : String
  zip : String
  state : Option String
deriving DecidableEq, Repr

/-- `geoQuery` for `addr.fields`. -/
def geoQuery (f : AddressFields) : GeoQuery :=
  { street := f.street.getD "", city := f.city.getD "",
    zip := f.zip.getD "", state := f.state }

/-- Environment of one `addMarkers` run: the loaded county layers, the
outcome of `geocode()` per query, whether the marker/`latLng` work inside
the first branch's `try` throws for an address, and the clock sampled at
each loop iteration. -/
structure MapEnv where
  layers : List Layer
  geo : GeoQuery → Option (Rat × Rat)
  markerFail : Address → Bool
  nowAt : Nat → Rat

/-- The `find` over the county layers: first layer whose feature is
present and whose polygon test returns `true`; per-layer errors are
caught and count as `false`. -/
def findCounty (layers : List Layer) (lat lng : Rat) : Option Layer :=
  layers.find? (fun layer =>
    layer.hasFeature &&
      (match layer.pip lat lng with
       | .yes => true
       | .no => false
       | .err => false))

/-- `county ? county.feature?.properties?.density : 0`. -/
def densityOf (o : Option Layer) : Option Rat :=
  match o with
  | some c => c.density
  | none => some 0

/-- One iteration of the `addMarkers` loop at index `i` (0-based):
`onProgress(index + 1)` first, then either the existing-coordinates branch
or the geocoding branch; returns the new state and the failed address,
if any. -/
def processItem (env : MapEnv) (i : Nat) (a : Address) (s : MapState) :
    MapState × Option Address :=
  let s1 := updateProgress (i + 1) (env.nowAt i) s
  if truthyNum a.lat && truthyNum a.lng then
    if env.markerFail a then (s1, some a)
    else
      let la := a.lat.getD 0
      let ln := a.lng.getD 0
      let d := densityOf (findCounty env.layers la ln)
      (setGeocoded a ⟨la, ln, d⟩ s1, none)
  else
    match env.geo (geoQuery a.fields) with
    | some (la, ln) =>
      let d := densityOf (findCounty env.layers la ln)
      (setGeocoded a ⟨la, ln, d⟩ s1, none)
    | none => (s1, some a)

/-- The sequential `for ... of addresses.entries()` loop of `addMarkers`,
accumulating the `failed` array. -/
def addMarkersLoop (env : MapEnv) : Nat → List Address → MapState → List Address →
    MapState × List Address
  | _, [], s, f => (s, f)
  | i, a :: rest, s, f =>
    match processItem env i a s with
    | (s1, none) => addMarkersLoop env (i + 1) rest s1 f
    | (s1, some fa) => addMarkersLoop env (i + 1) rest s1 (f ++ [fa])

/-- The driver in `AddressMap`: `startProcessing(addresses.length)`, then
`addMarkers(addresses, updateProgress)`, then `setFailed(failed)` and
`finishProcessing(true)`. -/
def runBatch (env : MapEnv) (startNow : Rat) (addrs : List Address)
    (s0 : MapState) : MapState :=
  let s1 := startProcessing addrs.length startNow s0
  let r := addMarkersLoop env 0 addrs s1 []
  finishProcessing true (setFailed r.2 r.1)

/-! ## `MapService.saveHeatMap` -/

/-- A latitude/longitude pair in a save payload. -/
structure GeoPair where
  latitude : Rat
  longitude : Rat
deriving DecidableEq, Repr

/-- One element of the list handed to `saveHeatMap`
(`AddressFields & { geocode?: {latitude, longitude} }`). -/
structure SavePoint where
  street : Option String
  city : Option String
  state : Option String
  zip : Option String
  geocode : Option GeoPair
deriving DecidableEq, Repr

/-- The filtered `addresses` array placed in the request body:
`addr.geocode?.latitude && addr.geocode?.longitude` (JS truthiness, so a
zero coordinate is dropped as well). -/
def savePayload (addrs : List SavePoint) : List SavePoint :=
  addrs.filter (fun a =>
    match a.geocode with
    | some g => g.latitude != 0 && g.longitude != 0
    | none => false)

/-- Outcome of the `saveHeatmapData` POST: the fetch/JSON step throws, the
response is non-ok, or a JSON body arrives carrying an optional
`data._id` and an optional `message`. -/
inductive FetchOutcome where
  | netErr (m : String)
  | notOk
  | ok (idOpt : Option String) (message : Option String)
deriving DecidableEq, Repr

/-- JS `a || b` for an optional string against a default. -/
def jsOrStr (o : Option String) (d : String) : String :=
  match o with
  | some s => if s == "" then d else s
  | none => d

/-- `MapService.saveHeatMap` with the remote store modelled as a function
of the submitted payload. -/
def saveHeatMap (resp : List SavePoint → FetchOutcome) (addrs : List SavePoint) :
    Except String String :=
  match resp (savePayload addrs) with
  | .netErr m => .error m
  | .notOk => .error "Failed to save map data"
  | .ok idOpt message =>
    match idOpt with
    | some i => .ok i
    | none => .error (jsOrStr message "Failed to save heatmap")

/-! ## Concrete sample inputs used by witnesses and counterexamples -/

/-- A concrete input address. -/
def addr0 : BasicAddress := ⟨"123 Main St", none, "Springfield", "IL", "62704"⟩

/-- A fully-confirmed Google result for `addr0`. -/
def gResultValid : GoogleResult :=
  { geocode := some ⟨some ⟨some 39, some (-89)⟩, none⟩,
    postalAddress := ⟨["123 MAIN ST"], "SPRINGFIELD", "IL", "62704-1234"⟩,
    addressComponents := [⟨"street", "MAIN ST", "CONFIRMED"⟩],
    county := some "Sangamon" }

/-- The resolved address the Google adapter produces from `gResultValid`. -/
def googleValidRes : ResolvedAddress :=
  { allValid := true,
    validatedAddress :=
      ⟨some "123 MAIN ST", none, some "SPRINGFIELD", some "IL", some "62704", some "Sangamon"⟩,
    originalAddress := addr0,
    issues := [], suggestions := ⟨none, none, none⟩,
    geocode := ⟨some ⟨some 39, some (-89)⟩, none⟩,
    verifiedWith := "Google" }

/-- A not-fully-confirmed Google result whose normalized street is the empty
string (`postalAddress.addressLines = [""]`) and whose geocode is sound. -/
def gEmptyStreet : GoogleResult :=
  { geocode := some ⟨some ⟨some 39, some 89⟩, none⟩,
    postalAddress := ⟨[""], "SPRINGFIELD", "IL", "62704"⟩,
    addressComponents := [⟨"street", "Main St", "UNCONFIRMED_BUT_PLAUSIBLE"⟩],
    county := none }

/-- A not-fully-valid Lob response with a non-empty street
(its ZIP differs from the submitted one, so `allValid` is false). -/
def lNonValid : LobResponse :=
  { primary_line := "123 MAIN ST", secondary_line := none,
    components := ⟨none, none, "99999", "IL", "SPRINGFIELD", some "Sangamon", some 39, some 89⟩ }

/-- A not-fully-confirmed Google result for `addr0` with a sound geocode. -/
def gInvalid : GoogleResult :=
  { geocode := some ⟨some ⟨some 39, some 89⟩, none⟩,
    postalAddress := ⟨["123 MAIN ST"], "SPRINGFIELD", "IL", "62704"⟩,
    addressComponents := [⟨"street", "Main St", "UNCONFIRMED_BUT_PLAUSIBLE"⟩],
    county := none }

/-- The resolved address the Google adapter produces from `gInvalid`. -/
def googleInvalidRes : ResolvedAddress :=
  { allValid := false,
    validatedAddress :=
      ⟨some "123 MAIN ST", none, some "SPRINGFIELD", some "IL", some "62704", none⟩,
    originalAddress := addr0,
    issues := [⟨"street", "Main St", "UNCONFIRMED_BUT_PLAUSIBLE"⟩],
    suggestions := ⟨some "Main St", none, none⟩,
    geocode := ⟨some ⟨some 39, some 89⟩, none⟩,
    verifiedWith := "Google" }

/-- A fully-valid Lob response for `addr0` whose coordinates are exactly
zero (`components.latitude = components.longitude = 0`). -/
def lValidZero : LobResponse :=
  { primary_line := "123 MAIN ST", secondary_line := none,
    components := ⟨none, none, "62704", "IL", "SPRINGFIELD", none, some 0, some 0⟩ }

/-- The resolved address the Lob adapter produces from `lValidZero`. -/
def lobValidZeroRes : ResolvedAddress :=
  { allValid := true,
    validatedAddress :=
      ⟨some "123 MAIN ST", none, some "SPRINGFIELD", some "IL", some "62704", none⟩,
    originalAddress := addr0,
    issues := [], suggestions := ⟨none, none, none⟩,
    geocode := ⟨some ⟨some 0, some 0⟩, none⟩,
    verifiedWith := "Lob" }

/-- A pair of distinct `Address` records with identical street, city, state
and zip fields. -/
def dupAddr : Address :=
  ⟨"1 A St, X", ⟨some "1 A St", some "X", some "ZZ", some "00001"⟩, none, none⟩

/-- Second record of the duplicate pair (different raw string and
coordinates, same fields). -/
def dupAddr2 : Address :=
  ⟨"1 A St, X (copy)", ⟨some "1 A St", some "X", some "ZZ", some "00001"⟩, some 5, some 6⟩

/-- An address carrying coordinates, for the enrichment counterexample. -/
def addrC6 : Address :=
  ⟨"5 B St", ⟨some "5 B St", some "Y", some "ZZ", some "00002"⟩, some 3, some 4⟩

/-- An environment whose single county layer's containment test throws on
every point, so no region ever contains a point. -/
def envC6 : MapEnv :=
  { layers := [{ hasFeature := true, name := "Nowhere", density := some 7,
                 pip := fun _ _ => .err }],
    geo := fun _ => none, markerFail := fun _ => false, nowAt := fun _ => 1000 }

/-- A save point whose geocode is present but has latitude `0`. -/
def pZero : SavePoint := ⟨some "A", none, none, none, some ⟨0, 10⟩⟩

/-! ## Helper lemmas about the store's map -/

theorem mapLookup_mapSet_self (m : List (String × Coords)) (k : String) (v : Coords) :
    mapLookup (mapSet m k v) k = some v := by
  induction m with
  | nil => simp [mapSet, mapLookup, List.find?]
  | cons p t ih =>
    by_cases h : p.1 == k
    · simp [mapSet, h, mapLookup, List.find?]
    · simpa [mapSet, h, mapLookup, List.find?] using ih

theorem mapHasKey_mapSet_self (m : List (String × Coords)) (k : String) (v : Coords) :
    mapHasKey (mapSet m k v) k = true := by
  induction m with
  | nil => simp [mapSet, mapHasKey]
  | cons p t ih =>
    by_cases h : p.1 == k
    · simp [mapSet, h, mapHasKey]
    · simpa [mapSet, h, mapHasKey] using ih

theorem mapSet_length_of_has (m : List (String × Coords)) (k : String) (v : Coords)
    (h : mapHasKey m k = true) : (mapSet m k v).length = m.length := by
  induction m with
  | nil => simp [mapHasKey] at h
  | cons p t ih =>
    by_cases hp : p.1 == k
    · simp [mapSet, hp]
    · have ht : mapHasKey t k = true := by
        simpa [mapHasKey, hp] using h
      simp [mapSet, hp, ih ht]

/-! ## Claim theorems -/

/-- C7: after every completed item with `progress > 0`, the ETA equals
`ceil((total - progress) * (elapsedSeconds / progress))` formatted as
`"{s}s"` under 60 seconds and `"{m}m {s}s"` otherwise (45 s → "45s",
125 s → "2m 5s", 0 s → "0s"); with `progress = 0` the ETA field is left
unchanged. -/
theorem updateProgress_eta_spec :
    (∀ (c : Nat) (now : Rat) (s : MapState),
        (updateProgress c now s).eta =
          if 0 < c then formatETA ((etaSeconds s c now : Int) : Rat) else s.eta) ∧
    (∀ (c : Nat) (now : Rat) (s : MapState), (updateProgress c now s).progress = c) ∧
    formatETA 45 = "45s" ∧ formatETA 125 = "2m 5s" ∧ formatETA 0 = "0s" := by
  refine ⟨?_, ?_, by with_unfolding_all rfl, by with_unfolding_all rfl,
    by with_unfolding_all rfl⟩
  · intro c now s
    unfold updateProgress updateETA
    split <;> rfl
  · intro c now s
    unfold updateProgress updateETA
    split <;> rfl

/-- C10: equal street/city/state/zip fields give equal `addressToKey`
keys; a second `setGeocoded` under the same key overwrites the map entry
without growing the map, while `processedAddresses` gains one record per
call; consequently a batch with duplicates can leave strictly fewer
`geocodedAddresses` entries than processed records. -/
theorem setGeocoded_duplicate_semantics :
    (∀ a1 a2 : Address,
        a1.fields.street = a2.fields.street → a1.fields.city = a2.fields.city →
        a1.fields.state = a2.fields.state → a1.fields.zip = a2.fields.zip →
        addressToKey a1 = addressToKey a2) ∧
    (∀ (s : MapState) (a1 a2 : Address) (c1 c2 : Coords),
        addressToKey a1 = addressToKey a2 →
        mapLookup (setGeocoded a2 c2 (setGeocoded a1 c1 s)).geocodedAddresses
            (addressToKey a2) = some c2 ∧
        (setGeocoded a2 c2 (setGeocoded a1 c1 s)).geocodedAddresses.length =
          (setGeocoded a1 c1 s).geocodedAddresses.length ∧
        (setGeocoded a2 c2 (setGeocoded a1 c1 s)).processedAddresses.length =
          s.processedAddresses.length + 2) ∧
    (setGeocoded dupAddr2 ⟨2, 2, none⟩ (setGeocoded dupAddr ⟨1, 1, none⟩
        initialMapState)).geocodedAddresses.length <
      (setGeocoded dupAddr2 ⟨2, 2, none⟩ (setGeocoded dupAddr ⟨1, 1, none⟩
        initialMapState)).processedAddresses.length := by
  refine ⟨?_, ?_, by decide⟩
  · intro a1 a2 h1 h2 h3 h4
    unfold addressToKey
    rw [h1, h2, h3, h4]
  · intro s a1 a2 c1 c2 hk
    refine ⟨?_, ?_, ?_⟩
    · simp [setGeocoded, mapLookup_mapSet_self]
    · simp only [setGeocoded]
      exact mapSet_length_of_has _ _ _ (hk ▸ mapHasKey_mapSet_self s.geocodedAddresses (addressToKey a1) c1)
    · simp [setGeocoded]

/-- Witness for C10: the duplicate-field pair `dupAddr`/`dupAddr2` gives
equal keys, the overwrite facts hold for them, and the strictness holds on
a concrete two-item batch. -/
theorem setGeocoded_duplicate_semantics_witness :
    addressToKey dupAddr = addressToKey dupAddr2 ∧
    mapLookup (setGeocoded dupAddr2 ⟨2, 2, none⟩ (setGeocoded dupAddr ⟨1, 1, none⟩
        initialMapState)).geocodedAddresses (addressToKey dupAddr2) = some ⟨2, 2, none⟩ :=
  ⟨setGeocoded_duplicate_semantics.1 dupAddr dupAddr2 rfl rfl rfl rfl,
   (setGeocoded_duplicate_semantics.2.1 initialMapState dupAddr dupAddr2 ⟨1, 1, none⟩ ⟨2, 2, none⟩
      (setGeocoded_duplicate_semantics.1 dupAddr dupAddr2 rfl rfl rfl rfl)).1⟩

/-! ## Helper lemmas about the resolution engine -/

theorem google_ok_build (conv : String → String) (zipDB : ZipDB) (addr : BasicAddress)
    (resp : GoogleResponse) (res : ResolvedAddress)
    (h : ValidateAddressViaGoogle conv zipDB addr resp = .ok res) :
    ∃ r geocode, resp = .ok r ∧ googleRescue zipDB addr r = .ok geocode ∧
      res = googleBuild conv addr r geocode := by
  cases resp with
  | fetchError m => simp [ValidateAddressViaGoogle] at h
  | apiError m => simp [ValidateAddressViaGoogle] at h
  | noResult => simp [ValidateAddressViaGoogle] at h
  | ok r =>
    simp only [ValidateAddressViaGoogle] at h
    cases hr : googleRescue zipDB addr r with
    | error m => rw [hr] at h; cases h
    | ok geocode =>
      rw [hr] at h
      exact ⟨r, geocode, rfl, hr, (Except.ok.injEq _ _ ▸ h).symm⟩

theorem googleBuild_verifiedWith (conv : String → String) (addr : BasicAddress)
    (r : GoogleResult) (geocode : Geocode) :
    (googleBuild conv addr r geocode).verifiedWith = "Google" := by
  unfold googleBuild
  split <;> rfl

theorem googleBuild_allValid_issues (conv : String → String) (addr : BasicAddress)
    (r : GoogleResult) (geocode : Geocode)
    (hv : (googleBuild conv addr r geocode).allValid = true) :
    (googleBuild conv addr r geocode).issues = [] := by
  unfold googleBuild at hv ⊢
  split at hv
  · split
    · rfl
    · simp_all
  · cases hv

theorem lob_ok_build (conv : String → String) (addr : BasicAddress)
    (out : LobOutcome) (res : ResolvedAddress)
    (h : validateAddressViaLob conv addr out = .ok res) :
    ∃ vr s, out = .ok vr ∧ res = lobBuild conv addr vr s := by
  cases out with
  | throwErr m => simp [validateAddressViaLob] at h
  | nullResp => simp [validateAddressViaLob] at h
  | ok vr =>
    simp only [validateAddressViaLob] at h
    exact ⟨vr, _, rfl, (Except.ok.injEq _ _ ▸ h).symm⟩

theorem lobBuild_allValid_issues (conv : String → String) (addr : BasicAddress)
    (vr : LobResponse) (s : Suggestions)
    (hv : (lobBuild conv addr vr s).allValid = true) :
    (lobBuild conv addr vr s).issues = [] := by
  unfold lobBuild at hv ⊢
  simp only [Bool.and_eq_true, Option.isNone_iff_eq_none] at hv
  obtain ⟨⟨h1, h2⟩, h3⟩ := hv
  simp [lobIssues, h1, h2, h3]

/-! ## Claim theorems about the resolution engine -/

/-- C4: when the primary (Google) provider reports `allValid = true`,
`exec` returns that provider's normalized result unchanged, tagged
`verifiedWith := "Google"`, and the outcome does not depend on the
secondary (Lob) provider at all. -/
theorem exec_primary_valid (conv : String → String) (zipDB : ZipDB)
    (addr : BasicAddress) (gResp : GoogleResponse) (lResp : LobOutcome)
    (res : ResolvedAddress)
    (h : ValidateAddressViaGoogle conv zipDB addr gResp = .ok res)
    (hv : res.allValid = true) :
    exec conv zipDB addr gResp lResp = .ok res ∧
    res.verifiedWith = "Google" ∧
    (∀ lResp2, exec conv zipDB addr gResp lResp2 = exec conv zipDB addr gResp lResp) := by
  have hw : res.verifiedWith = "Google" := by
    obtain ⟨r, geocode, -, -, hb⟩ := google_ok_build conv zipDB addr gResp res h
    rw [hb]
    exact googleBuild_verifiedWith conv addr r geocode
  have he : ∀ lResp2, exec conv zipDB addr gResp lResp2 = .ok res := by
    intro lResp2
    unfold exec
    rw [h]
    simp [hv]
  exact ⟨he lResp, hw, fun lResp2 => (he lResp2).trans (he lResp).symm⟩

/-- Witness for C4 at a concrete fully-confirmed Google response. -/
theorem exec_primary_valid_witness :
    ValidateAddressViaGoogle (fun s => s) (fun _ => none) addr0 (.ok gResultValid) =
        .ok googleValidRes ∧
    googleValidRes.allValid = true ∧
    exec (fun s => s) (fun _ => none) addr0 (.ok gResultValid) (.nullResp) =
        .ok googleValidRes ∧
    googleValidRes.verifiedWith = "Google" :=
  ⟨by with_unfolding_all rfl, by with_unfolding_all rfl,
   (exec_primary_valid (fun s => s) (fun _ => none) addr0 (.ok gResultValid) (.nullResp)
      googleValidRes (by with_unfolding_all rfl) (by with_unfolding_all rfl)).1,
   (exec_primary_valid (fun s => s) (fun _ => none) addr0 (.ok gResultValid) (.nullResp)
      googleValidRes (by with_unfolding_all rfl) (by with_unfolding_all rfl)).2.1⟩

/-- C9: every successfully returned `ResolvedAddress` with
`allValid = true` — whichever of the three `exec` paths produced it —
has an empty `issues` list. -/
theorem exec_allValid_issues_empty (conv : String → String) (zipDB : ZipDB)
    (addr : BasicAddress) (gResp : GoogleResponse) (lResp : LobOutcome)
    (res : ResolvedAddress)
    (h : exec conv zipDB addr gResp lResp = .ok res)
    (hv : res.allValid = true) :
    res.issues = [] := by
  unfold exec at h
  split at h
  · cases h
  · rename_i g hg
    split at h
    · cases h
      obtain ⟨r, geocode, -, -, hb⟩ := google_ok_build conv zipDB addr gResp res hg
      rw [hb] at hv ⊢
      exact googleBuild_allValid_issues conv addr r geocode hv
    · split at h
      · cases h
      · rename_i l hl
        split at h
        · cases h
          obtain ⟨vr, s, -, hb⟩ := lob_ok_build conv addr lResp res hl
          rw [hb] at hv ⊢
          exact lobBuild_allValid_issues conv addr vr s hv
        · split at h
          · cases h
          · cases h
            simp [mergeBuild] at hv

/-- Witness for C9 at a concrete fully-confirmed Google response. -/
theorem exec_allValid_issues_empty_witness :
    exec (fun s => s) (fun _ => none) addr0 (.ok gResultValid) (.nullResp) =
        .ok googleValidRes ∧
    googleValidRes.allValid = true ∧
    googleValidRes.issues = [] :=
  ⟨by with_unfolding_all rfl, by with_unfolding_all rfl,
   exec_allValid_issues_empty (fun s => s) (fun _ => none) addr0 (.ok gResultValid)
     (.nullResp) googleValidRes (by with_unfolding_all rfl) (by with_unfolding_all rfl)⟩

/-- C3 (counterexample): when the primary (Google) call throws
(`network down`), `exec` propagates that error even though the secondary
(Lob) provider would have returned a fully-valid result — the secondary
is never attempted. -/
theorem exec_primary_throw_cex :
    exec (fun s => s) (fun _ => none) addr0 (.fetchError "network down")
        (.ok lValidZero) = .error "network down" ∧
    validateAddressViaLob (fun s => s) addr0 (.ok lValidZero) =
        .ok lobValidZeroRes ∧
    lobValidZeroRes.allValid = true := by
  refine ⟨rfl, by with_unfolding_all rfl, by with_unfolding_all rfl⟩

/-- C3 (amended): an error thrown by the primary (Google) call propagates
out of `exec` unchanged, whatever the secondary provider would do; the
secondary runs only when the primary returns a not-fully-valid result
without throwing, and a secondary error is then propagated likewise. -/
theorem exec_error_propagation (conv : String → String) (zipDB : ZipDB)
    (addr : BasicAddress) (gResp : GoogleResponse) (lResp : LobOutcome) :
    (∀ m, ValidateAddressViaGoogle conv zipDB addr gResp = .error m →
        exec conv zipDB addr gResp lResp = .error m) ∧
    (∀ g m, ValidateAddressViaGoogle conv zipDB addr gResp = .ok g →
        g.allValid = false → validateAddressViaLob conv addr lResp = .error m →
        exec conv zipDB addr gResp lResp = .error m) := by
  constructor
  · intro m hm
    unfold exec
    rw [hm]
  · intro g m hg hgv hl
    unfold exec
    simp [hg, hgv, hl]

/-- Witness for C3's amended statement: a concrete thrown primary error
propagates, and a concrete secondary error propagates after a
not-fully-valid primary result. -/
theorem exec_error_propagation_witness :
    exec (fun s => s) (fun _ => none) addr0 (.fetchError "boom") (.nullResp) =
        .error "boom" ∧
    exec (fun s => s) (fun _ => none) addr0 (.ok gInvalid) (.throwErr "lob down") =
        .error "lob down" :=
  ⟨(exec_error_propagation (fun s => s) (fun _ => none) addr0 (.fetchError "boom")
      (.nullResp)).1 "boom" (by with_unfolding_all rfl),
   (exec_error_propagation (fun s => s) (fun _ => none) addr0 (.ok gInvalid)
      (.throwErr "lob down")).2 googleInvalidRes "lob down"
      (by with_unfolding_all rfl) (by with_unfolding_all rfl)
      (by with_unfolding_all rfl)⟩

/-- C2 (counterexample): a fully-valid secondary (Lob) result whose
coordinates are exactly `latitude = 0, longitude = 0` is returned as a
success by `exec` with the zero geocode intact — no ZIP-centroid
substitution happens on that path. -/
theorem exec_secondary_valid_zero_geocode_cex :
    (exec (fun s => s) (fun _ => none) addr0 (.ok gInvalid) (.ok lValidZero)).map
        (fun r => (r.allValid, r.geocode.location)) =
      .ok (true, some ⟨some 0, some 0⟩) := by
  with_unfolding_all rfl

/-- C2 (amended): the zero/missing-coordinate rescue runs on the merge
path (and inside the primary adapter), not on the secondary-valid path: a
fully-valid secondary result is returned with no coordinate check; on the
merge path, when the primary geocode is missing/zero, an empty ZIP lookup
fails the call and a located ZIP entry has its centroid substituted into
the merged geocode. -/
theorem exec_zero_geocode_rescue (conv : String → String) (zipDB : ZipDB)
    (addr : BasicAddress) (gResp : GoogleResponse) (lResp : LobOutcome)
    (g l : ResolvedAddress)
    (hg : ValidateAddressViaGoogle conv zipDB addr gResp = .ok g)
    (hgv : g.allValid = false)
    (hl : validateAddressViaLob conv addr lResp = .ok l) :
    (l.allValid = true → exec conv zipDB addr gResp lResp = .ok l) ∧
    (l.allValid = false → locFalsy g.geocode = true →
      (zipDB (mergeZipToVerify g l addr) = none →
          exec conv zipDB addr gResp lResp = .error zipNotFoundMsg) ∧
      (∀ lst zi loc, zipDB (mergeZipToVerify g l addr) = some lst →
          lst.head? = some zi → zi.location = some loc →
          ∃ res, exec conv zipDB addr gResp lResp = .ok res ∧
            res.geocode.location = some loc)) := by
  constructor
  · intro hlv
    unfold exec
    simp [hg, hgv, hl, hlv]
  · intro hlv hbad
    constructor
    · intro hz
      unfold exec
      simp [hg, hgv, hl, hlv, mergeRescue, hbad, hz]
    · intro lst zi loc hz hhd hloc
      refine ⟨mergeBuild addr g l { g.geocode with location := some loc }, ?_, ?_⟩
      · unfold exec
        simp [hg, hgv, hl, hlv, mergeRescue, hbad, hz, hhd, hloc]
      · simp [mergeBuild, spreadGeocode, jsNullish]

/-- Witness for C2's amended statement: a concrete fully-valid secondary
result escapes the coordinate check. -/
theorem exec_zero_geocode_rescue_witness :
    exec (fun s => s) (fun _ => none) addr0 (.ok gInvalid) (.ok lValidZero) =
        .ok lobValidZeroRes :=
  (exec_zero_geocode_rescue (fun s => s) (fun _ => none) addr0 (.ok gInvalid)
      (.ok lValidZero) googleInvalidRes lobValidZeroRes
      (by with_unfolding_all rfl) (by with_unfolding_all rfl)
      (by with_unfolding_all rfl)).1 (by with_unfolding_all rfl)

/-- C1 (code slip): in the merge path, an empty-string primary field is
kept as-is — the `Object.values(...).forEach((v) => { if (v === '') v =
null; })` loop reassigns its callback parameter and never mutates the
record, and `'' ?? x` evaluates to `''` — so the merged street stays `""`
even though the secondary provider returned the non-empty
`"123 MAIN ST"`. -/
theorem exec_merge_keeps_empty_street :
    (exec (fun s => s) (fun _ => none) addr0 (.ok gEmptyStreet) (.ok lNonValid)).map
        (fun r => r.validatedAddress.street) = .ok (some "") ∧
    (validateAddressViaLob (fun s => s) addr0 (.ok lNonValid)).map
        (fun r => r.validatedAddress.street) = .ok (some "123 MAIN ST") := by
  refine ⟨by with_unfolding_all rfl, by with_unfolding_all rfl⟩

/-! ## Helper lemmas about the batch loop -/

theorem updateProgress_total (c : Nat) (now : Rat) (s : MapState) :
    (updateProgress c now s).total = s.total := by
  unfold updateProgress updateETA
  split <;> rfl

theorem updateProgress_progress (c : Nat) (now : Rat) (s : MapState) :
    (updateProgress c now s).progress = c := by
  unfold updateProgress updateETA
  split <;> rfl

theorem updateProgress_processed (c : Nat) (now : Rat) (s : MapState) :
    (updateProgress c now s).processedAddresses = s.processedAddresses := by
  unfold updateProgress updateETA
  split <;> rfl

theorem setGeocoded_total (a : Address) (c : Coords) (s : MapState) :
    (setGeocoded a c s).total = s.total := rfl

theorem setGeocoded_progress (a : Address) (c : Coords) (s : MapState) :
    (setGeocoded a c s).progress = s.progress := rfl

theorem setGeocoded_processed_length (a : Address) (c : Coords) (s : MapState) :
    (setGeocoded a c s).processedAddresses.length = s.processedAddresses.length + 1 := by
  simp [setGeocoded]

/-- Each loop iteration preserves `total`, sets `progress` to `i + 1`, and
adds exactly one unit to `processedAddresses.length` plus the failure
indicator. -/
theorem processItem_spec (env : MapEnv) (i : Nat) (a : Address) (s : MapState) :
    (processItem env i a s).1.total = s.total ∧
    (processItem env i a s).1.progress = i + 1 ∧
    (processItem env i a s).1.processedAddresses.length +
        ((processItem env i a s).2.elim 0 (fun _ => 1)) =
      s.processedAddresses.length + 1 := by
  unfold processItem
  split
  · split
    · simp [updateProgress_total, updateProgress_progress, updateProgress_processed]
    · simp [setGeocoded_total, setGeocoded_progress, setGeocoded_processed_length,
        updateProgress_total, updateProgress_progress, updateProgress_processed]
  · split
    · simp [setGeocoded_total, setGeocoded_progress, setGeocoded_processed_length,
        updateProgress_total, updateProgress_progress, updateProgress_processed]
    · simp [updateProgress_total, updateProgress_progress, updateProgress_processed]

theorem addMarkersLoop_cons (env : MapEnv) (i : Nat) (a : Address)
    (rest : List Address) (s : MapState) (f : List Address) :
    addMarkersLoop env i (a :: rest) s f =
      match processItem env i a s with
      | (s1, none) => addMarkersLoop env (i + 1) rest s1 f
      | (s1, some fa) => addMarkersLoop env (i + 1) rest s1 (f ++ [fa]) := rfl

/-- Loop invariant: `total` is preserved, `progress` ends at the start
index plus the number of remaining items (unless the list is empty), and
every item lands in exactly one of `processedAddresses` and the failed
accumulator. -/
theorem addMarkersLoop_spec (env : MapEnv) :
    ∀ (l : List Address) (i : Nat) (s : MapState) (f : List Address),
      (addMarkersLoop env i l s f).1.total = s.total ∧
      (addMarkersLoop env i l s f).1.progress =
        (if l.isEmpty then s.progress else i + l.length) ∧
      (addMarkersLoop env i l s f).1.processedAddresses.length +
          (addMarkersLoop env i l s f).2.length =
        s.processedAddresses.length + f.length + l.length := by
  intro l
  induction l with
  | nil => intro i s f; simp [addMarkersLoop]
  | cons a rest ih =>
    intro i s f
    obtain ⟨ht, hp, hc⟩ := processItem_spec env i a s
    cases hpi : processItem env i a s with
    | mk s1 r =>
      rw [hpi] at ht hp hc
      cases r with
      | none =>
        have hl : addMarkersLoop env i (a :: rest) s f =
            addMarkersLoop env (i + 1) rest s1 f := by
          rw [addMarkersLoop_cons, hpi]
        obtain ⟨iht, ihp, ihc⟩ := ih (i + 1) s1 f
        refine ⟨by rw [hl, iht, ht], ?_, ?_⟩
        · rw [hl, ihp]
          cases rest with
          | nil => simpa using hp
          | cons b t => simp [List.length_cons]; omega
        · rw [hl]
          simp only [Option.elim] at hc
          rw [ihc]
          simp [List.length_cons]
          omega
      | some fa =>
        have hl : addMarkersLoop env i (a :: rest) s f =
            addMarkersLoop env (i + 1) rest s1 (f ++ [fa]) := by
          rw [addMarkersLoop_cons, hpi]
        obtain ⟨iht, ihp, ihc⟩ := ih (i + 1) s1 (f ++ [fa])
        refine ⟨by rw [hl, iht, ht], ?_, ?_⟩
        · rw [hl, ihp]
          cases rest with
          | nil => simpa using hp
          | cons b t => simp [List.length_cons]; omega
        · rw [hl]
          simp only [Option.elim] at hc
          rw [ihc]
          simp [List.length_cons]
          omega

/-! ## Claim theorems about the batch -/

/-- C5: after a full batch run, `progress = total = addresses.length`, and
this equals the number of failed addresses plus the number of points
recorded during the run — every item became exactly one of the two, and
failures advanced progress too. -/
theorem runBatch_progress_invariant (env : MapEnv) (startNow : Rat)
    (addrs : List Address) (s0 : MapState) :
    (runBatch env startNow addrs s0).progress = (runBatch env startNow addrs s0).total ∧
    (runBatch env startNow addrs s0).total = addrs.length ∧
    (runBatch env startNow addrs s0).total =
      (runBatch env startNow addrs s0).failedAddresses.length +
        (runBatch env startNow addrs s0).processedAddresses.length := by
  obtain ⟨ht, hp, hc⟩ :=
    addMarkersLoop_spec env addrs 0 (startProcessing addrs.length startNow s0) []
  cases hr : addMarkersLoop env 0 addrs (startProcessing addrs.length startNow s0) [] with
  | mk s2 failed =>
    rw [hr] at ht hp hc
    have hrb : runBatch env startNow addrs s0 =
        finishProcessing true (setFailed failed s2) := by
      unfold runBatch
      dsimp only
      rw [hr]
    have h1 : (finishProcessing true (setFailed failed s2)).progress = s2.progress := rfl
    have h2 : (finishProcessing true (setFailed failed s2)).total = s2.total := rfl
    have h3 : (finishProcessing true (setFailed failed s2)).failedAddresses = failed := rfl
    have h4 : (finishProcessing true (setFailed failed s2)).processedAddresses =
        s2.processedAddresses := rfl
    rw [hrb, h1, h2, h3, h4]
    simp only [startProcessing] at ht hp hc
    refine ⟨?_, ?_, ?_⟩
    · rw [ht, hp]
      cases addrs with
      | nil => simp
      | cons a t => simp
    · rw [ht]
    · rw [ht]
      simp at hc
      omega

/-- C6 (counterexample): with a loaded region layer whose containment test
throws on every point (so no region contains the point), the single
resolved point is still recorded, but its `countyDensity` is `0`, not
left undefined. -/
theorem addMarkers_no_region_density_zero_cex :
    (runBatch envC6 0 [addrC6] initialMapState).processedAddresses.map
        (fun e => e.countyDensity) = [some 0] ∧
    (runBatch envC6 0 [addrC6] initialMapState).failedAddresses = [] := by
  refine ⟨by with_unfolding_all rfl, by with_unfolding_all rfl⟩

/-- C6 (amended): when the containment lookup finds no containing region
(including when every per-layer test throws — those errors are swallowed
and count as no match), the point is still recorded — with
`countyDensity = 0`, not undefined — and the loop continues with the
remaining items. -/
theorem addMarkers_no_region_records_zero (env : MapEnv) (i : Nat) (a : Address)
    (s : MapState) (rest f : List Address)
    (hc : (truthyNum a.lat && truthyNum a.lng) = true)
    (hm : env.markerFail a = false)
    (hfind : findCounty env.layers (a.lat.getD 0) (a.lng.getD 0) = none) :
    addMarkersLoop env i (a :: rest) s f =
      addMarkersLoop env (i + 1) rest
        (setGeocoded a ⟨a.lat.getD 0, a.lng.getD 0, some 0⟩
          (updateProgress (i + 1) (env.nowAt i) s)) f ∧
    (setGeocoded a ⟨a.lat.getD 0, a.lng.getD 0, some 0⟩
        (updateProgress (i + 1) (env.nowAt i) s)).processedAddresses =
      (updateProgress (i + 1) (env.nowAt i) s).processedAddresses ++
        [⟨a.fields.street, a.fields.city, a.fields.state, a.fields.zip,
          a.lat.getD 0, a.lng.getD 0, some 0⟩] := by
    have hpi : processItem env i a s =
        (setGeocoded a ⟨a.lat.getD 0, a.lng.getD 0, some 0⟩
          (updateProgress (i + 1) (env.nowAt i) s), none) := by
      unfold processItem
      rw [hc, hm]
      simp [hfind, densityOf]
    constructor
    · rw [addMarkersLoop_cons, hpi]
    · rfl

/-- Witness for C6's amended statement on a concrete one-item batch whose
only layer's containment test always throws. -/
theorem addMarkers_no_region_records_zero_witness :
    (truthyNum addrC6.lat && truthyNum addrC6.lng) = true ∧
    findCounty envC6.layers (addrC6.lat.getD 0) (addrC6.lng.getD 0) = none ∧
    addMarkersLoop envC6 0 [addrC6] initialMapState [] =
      addMarkersLoop envC6 1 []
        (setGeocoded addrC6 ⟨addrC6.lat.getD 0, addrC6.lng.getD 0, some 0⟩
          (updateProgress 1 (envC6.nowAt 0) initialMapState)) [] :=
  ⟨by with_unfolding_all rfl, by with_unfolding_all rfl,
   (addMarkers_no_region_records_zero envC6 0 addrC6 initialMapState [] []
      (by with_unfolding_all rfl) (by with_unfolding_all rfl)
      (by with_unfolding_all rfl)).1⟩

/-! ## Claim theorems about the share gateway -/

/-- C8 (counterexample): a point whose geocode is present with
`latitude = 0` is silently dropped from the submitted payload even though
both coordinates are present, because the filter uses JS truthiness. -/
theorem savePayload_zero_coordinate_cex :
    savePayload [pZero] = [] ∧ pZero.geocode.isSome = true := by
  refine ⟨by with_unfolding_all rfl, by with_unfolding_all rfl⟩

/-- C8 (amended): the submitted payload contains exactly the points whose
geocode is present with nonzero latitude and longitude (a present zero
coordinate is excluded too); `save` fails when the store
rejects/unreachable (fetch error), when the response is non-ok, or when
the response body lacks the stored id; it returns the id otherwise. -/
theorem saveHeatMap_spec :
    (∀ (addrs : List SavePoint) (p : SavePoint),
        p ∈ savePayload addrs ↔
          p ∈ addrs ∧ ∃ g, p.geocode = some g ∧ g.latitude ≠ 0 ∧ g.longitude ≠ 0) ∧
    (∀ (resp : List SavePoint → FetchOutcome) (addrs : List SavePoint) (m : String),
        resp (savePayload addrs) = .netErr m → saveHeatMap resp addrs = .error m) ∧
    (∀ (resp : List SavePoint → FetchOutcome) (addrs : List SavePoint),
        resp (savePayload addrs) = .notOk →
        saveHeatMap resp addrs = .error "Failed to save map data") ∧
    (∀ (resp : List SavePoint → FetchOutcome) (addrs : List SavePoint)
        (msg : Option String),
        resp (savePayload addrs) = .ok none msg →
        saveHeatMap resp addrs = .error (jsOrStr msg "Failed to save heatmap")) ∧
    (∀ (resp : List SavePoint → FetchOutcome) (addrs : List SavePoint)
        (i : String) (msg : Option String),
        resp (savePayload addrs) = .ok (some i) msg →
        saveHeatMap resp addrs = .ok i) := by
  refine ⟨?_, ?_, ?_, ?_, ?_⟩
  · intro addrs p
    unfold savePayload
    rw [List.mem_filter]
    constructor
    · rintro ⟨hmem, hb⟩
      refine ⟨hmem, ?_⟩
      cases hg : p.geocode with
      | none => rw [hg] at hb; cases hb
      | some g =>
        rw [hg] at hb
        simp only [Bool.and_eq_true, bne_iff_ne] at hb
        exact ⟨g, rfl, hb.1, hb.2⟩
    · rintro ⟨hmem, g, hg, hla, hlo⟩
      refine ⟨hmem, ?_⟩
      rw [hg]
      simp only [Bool.and_eq_true, bne_iff_ne]
      exact ⟨hla, hlo⟩
  · intro resp addrs m hm
    unfold saveHeatMap
    rw [hm]
  · intro resp addrs hm
    unfold saveHeatMap
    rw [hm]
  · intro resp addrs msg hm
    unfold saveHeatMap
    rw [hm]
  · intro resp addrs i msg hm
    unfold saveHeatMap
    rw [hm]

/-- Witness for C8's amended statement on a concrete store that reports a
network failure. -/
theorem saveHeatMap_spec_witness :
    saveHeatMap (fun _ => .netErr "store unreachable") [pZero] =
      .error "store unreachable" :=
  saveHeatMap_spec.2.1 (fun _ => .netErr "store unreachable") [pZero]
    "store unreachable" rfl

end HeatMap
